import Mathlib

/-!
Shallow embedding of the AdiTradingBot trading agent (src/trader.py and
src/main.py) and proofs about its signal engine, order-monitoring state
machine, order placement, scheduler clock and trade ledger.

Conventions of the embedding:
* Python floats are modelled as rationals (ℚ); `np.mean` of an empty list,
  which is IEEE NaN in the source, is modelled as `none`, and the NaN
  comparison semantics (every comparison with NaN is false) is modelled by
  `nanGt` / `nanLt` on `Option ℚ`.
* Python exceptions are modelled as an `err : Option String` field carrying
  the label of the exception; an uncaught exception aborts the enclosing
  loop.
* The brokerage and the wall clock are oracles passed in explicitly: the
  stream of statuses returned by successive `get_order_by_id` calls is a
  function `Nat → String`, brokerage acceptance of `submit_order` is a
  boolean, and `systime.sleep` is counted rather than performed.
-/

namespace AdiTradingBot

/-- Order side, from `alpaca.trading.enums.OrderSide` as used by the bot. -/
inductive OrderSide
  | BUY
  | SELL
deriving DecidableEq, Repr

/-- Behaviour of `np.mean` on a list of floats: arithmetic mean; on an
empty list NumPy returns NaN (with a warning), modelled here as `none`. -/
def npMean (xs : List ℚ) : Option ℚ :=
  if xs.isEmpty then none else some (xs.sum / (xs.length : ℚ))

/-- Strict `>` under IEEE semantics where `none` stands for NaN: any
comparison involving NaN is false. -/
def nanGt : Option ℚ → Option ℚ → Bool
  | some a, some b => decide (b < a)
  | _, _ => false

/-- Strict `<` under IEEE semantics where `none` stands for NaN. -/
def nanLt : Option ℚ → Option ℚ → Bool
  | some a, some b => decide (a < b)
  | _, _ => false

/-- Embedding of `Trader.make_decision` (src/trader.py lines 282-308):
compares the mean of the short price window with the mean of the long
window and returns a side together with a sizing multiplier. The return
type of the source admits `None` for the side ("None means no action" in
its docstring), hence `Option OrderSide` here, though every branch
returns a concrete side. -/
def make_decision (short_prices_5d long_prices_20d : List ℚ) :
    Option OrderSide × ℚ :=
  let sma_5d := npMean short_prices_5d
  let sma_20d := npMean long_prices_20d
  if nanGt sma_5d sma_20d then (some OrderSide.BUY, 0.75)
  else if nanLt sma_5d sma_20d then (some OrderSide.SELL, 0.10)
  else (some OrderSide.BUY, 0.50)

/-- The poll loop body of `Trader._monitor_order` (src/trader.py lines
182-190): `while order.status != "filled" and remaining_time > 0`, each
iteration sleeping `wait_step = 60` seconds, decrementing the remaining
time and re-fetching the order status. `getStatus n` is the status
returned by the (n+1)-th `get_order_by_id` call; `sleeps` and `polls`
count the side effects performed so far. Returns the final status with
the side-effect counts. -/
def monitorLoop (getStatus : Nat → String) (status : String) (remaining : Int)
    (sleeps polls : Nat) : String × Nat × Nat :=
  if status ≠ "filled" ∧ 0 < remaining then
    monitorLoop getStatus (getStatus polls) (remaining - 60) (sleeps + 1) (polls + 1)
  else
    (status, sleeps, polls)
termination_by remaining.toNat
decreasing_by omega

/-- Observable outcome of one `_monitor_order` invocation: how many
sleeps, status polls and cancel requests it performed, the statuses it
appended to the trade log, and its boolean return value. -/
structure MonitorOutcome where
  sleeps : Nat
  polls : Nat
  cancels : Nat
  logged : List String
  filled : Bool
deriving DecidableEq, Repr

/-- Embedding of `Trader._monitor_order` (src/trader.py lines 167-198):
run the poll loop starting from the status of the submitted order, write
one trade-log record with status `CANCELLED` or `FILLED`, issue a cancel
request iff the final status is not `filled`, and return whether the
order filled. -/
def monitor_order (getStatus : Nat → String) (initStatus : String)
    (max_wait : Int) : MonitorOutcome :=
  match monitorLoop getStatus initStatus max_wait 0 0 with
  | (final, sleeps, polls) =>
    let status := if final ≠ "filled" then "CANCELLED" else "FILLED"
    { sleeps := sleeps
      polls := polls
      cancels := if final ≠ "filled" then 1 else 0
      logged := [status]
      filled := final == "filled" }

/-- Python truthiness of an optional float argument: `None` and `0.0` are
falsy, every other value is truthy (`if notional:` / `elif qty:` in the
source). -/
def truthy : Option ℚ → Bool
  | none => false
  | some v => decide (v ≠ 0)

/-- The sizing part of a `MarketOrderRequest` as built by `_place_order`:
the side together with whichever of `qty` / `notional` was put into
`request_params`. -/
structure OrderReq where
  side : OrderSide
  qty : Option ℚ
  notional : Option ℚ
deriving DecidableEq, Repr

/-- Observable outcome of one strategy cycle (or one `_place_order`
call): the `submit_order` calls made, the trade-log records appended, and
the uncaught exception if one was raised. -/
structure CycleResult where
  submitted : List OrderReq
  logs : List String
  err : Option String
deriving DecidableEq, Repr

/-- Embedding of `Trader._place_order` (src/trader.py lines 131-165): if
`notional` is truthy the request carries `notional`; otherwise if `qty`
is truthy it carries `qty`; otherwise a `ValueError` is raised before any
submission. A truthy sizing leads to a `submit_order` call; if the
brokerage rejects it (`submitOk = false`) the exception propagates
uncaught, otherwise `_monitor_order` runs to completion. -/
def place_order (qty notional : Option ℚ) (side : OrderSide) (submitOk : Bool)
    (getStatus : Nat → String) (initStatus : String) (max_wait : Int) :
    CycleResult :=
  if truthy notional then
    let req : OrderReq := { side := side, qty := none, notional := notional }
    if submitOk then
      { submitted := [req],
        logs := (monitor_order getStatus initStatus max_wait).logged,
        err := none }
    else
      { submitted := [req], logs := [], err := some "SubmissionError" }
  else if truthy qty then
    let req : OrderReq := { side := side, qty := qty, notional := none }
    if submitOk then
      { submitted := [req],
        logs := (monitor_order getStatus initStatus max_wait).logged,
        err := none }
    else
      { submitted := [req], logs := [], err := some "SubmissionError" }
  else
    { submitted := [], logs := [], err := some "ValueError" }

/-- The collaborators read by one in-session strategy cycle of
`Trader.run` (src/trader.py lines 327-366): the two fetched price
windows, the cash of the account, the open position quantity for the
symbol if any, whether the brokerage accepts the submission, and the
order-status stream together with the initial status of the submitted
order. -/
structure CycleEnv where
  shortPrices : List ℚ
  longPrices : List ℚ
  cash : ℚ
  positionQty : Option ℚ
  submitOk : Bool
  pollStatuses : Nat → String
  initStatus : String
  maxWait : Int

/-- One in-session strategy cycle of `Trader.run` (src/trader.py lines
327-366): run `make_decision`; on BUY place a notional order of
`cash * multiplier`; on SELL place a quantity order of
`position_qty * multiplier` if a position exists and do nothing
otherwise; a `None` side takes no action. -/
def runCycle (env : CycleEnv) : CycleResult :=
  match make_decision env.shortPrices env.longPrices with
  | (some OrderSide.BUY, multiplier) =>
    place_order none (some (env.cash * multiplier)) OrderSide.BUY
      env.submitOk env.pollStatuses env.initStatus env.maxWait
  | (some OrderSide.SELL, multiplier) =>
    match env.positionQty with
    | some q =>
      place_order (some (q * multiplier)) none OrderSide.SELL
        env.submitOk env.pollStatuses env.initStatus env.maxWait
    | none => { submitted := [], logs := [], err := none }
  | (none, _) => { submitted := [], logs := [], err := none }

/-- The scheduler loop of `Trader.run` over a list of per-cycle
environments: cycles run serially; an uncaught exception terminates the
loop immediately (there is no `try`/`except` anywhere in `run`), so no
later cycle executes. Returns the accumulated trade-log records and the
terminating exception if any. -/
def runLoop : List CycleEnv → List String × Option String
  | [] => ([], none)
  | env :: rest =>
    let r := runCycle env
    match r.err with
    | some e => (r.logs, some e)
    | none =>
      match runLoop rest with
      | (logs, e) => (r.logs ++ logs, e)

/-- A local wall-clock instant in the trading timezone of the bot, at
one-second resolution: `day` is an absolute day index whose `day % 7` is
the Python weekday (0 = Monday, 5 = Saturday, 6 = Sunday), and `sod` is
the number of seconds since local midnight. -/
structure LocalTime where
  day : Nat
  sod : Nat
deriving DecidableEq, Repr

/-- Session open, 09:30 local, as seconds since midnight. -/
def marketOpenSod : Nat := 9 * 3600 + 30 * 60

/-- Session close, 16:00 local, as seconds since midnight. -/
def marketCloseSod : Nat := 16 * 3600

/-- What one iteration of the scheduler decides: sleep until `next`, or
execute the strategy now and then sleep until `next`. -/
inductive WakeResult
  | wait (next : LocalTime)
  | trade (next : LocalTime)
deriving DecidableEq, Repr

/-- The next-wake computation of `Trader.run` (src/trader.py lines
316-371, non-quick-test path): on a weekday after 16:00 the next wake is
09:30 the following calendar day; on a weekday before 09:30 it is 09:30
the same day; in session the strategy executes and the next wake is two
calendar days later at the same time of day; on Saturday and Sunday the
next wake is one calendar day later at the same time of day (the source
adds `timedelta(days=1)` without resetting the time in this branch). -/
def nextWake (now : LocalTime) : WakeResult :=
  if now.day % 7 < 5 then
    if marketCloseSod < now.sod then
      WakeResult.wait { day := now.day + 1, sod := marketOpenSod }
    else if now.sod < marketOpenSod then
      WakeResult.wait { day := now.day, sod := marketOpenSod }
    else
      WakeResult.trade { day := now.day + 2, sod := now.sod }
  else
    WakeResult.wait { day := now.day + 1, sod := now.sod }

/-- Header line `Trader._update_trade_log` writes when it creates the
ledger file. -/
def tradeLogHeader : String := "timestamp,symbol,amount,trade_type,side,status"

/-- Embedding of `Trader._update_trade_log` (src/trader.py lines
200-227) acting on the contents of the ledger file: `none` models a file
that does not exist yet; in that case the file is created with the header
line written once, and the record line is then appended in append mode. -/
def update_trade_log (file : Option (List String)) (record : String) :
    List String :=
  match file with
  | none => [tradeLogHeader] ++ [record]
  | some lines => lines ++ [record]

/-- Status stream of a brokerage whose orders are already filled. -/
def pollFilled : Nat → String := fun _ => "filled"

/-- Concrete cycle: BUY signal (short mean 2 above long mean 1), cash
1000, brokerage rejects the submission. -/
def rejectedBuyEnv : CycleEnv :=
  { shortPrices := [2], longPrices := [1], cash := 1000, positionQty := none,
    submitOk := false, pollStatuses := pollFilled, initStatus := "filled",
    maxWait := 300 }

/-- Concrete cycle: BUY signal, cash 1000, brokerage accepts and the
order fills immediately. -/
def acceptedBuyEnv : CycleEnv :=
  { shortPrices := [2], longPrices := [1], cash := 1000, positionQty := none,
    submitOk := true, pollStatuses := pollFilled, initStatus := "filled",
    maxWait := 300 }

/-- Concrete cycle: SELL signal (short mean 1 below long mean 2) with an
open position of 10 shares. -/
def sellEnvWithPosition : CycleEnv :=
  { shortPrices := [1], longPrices := [2], cash := 0, positionQty := some 10,
    submitOk := true, pollStatuses := pollFilled, initStatus := "filled",
    maxWait := 300 }

/-- Concrete cycle: SELL signal with no open position for the symbol. -/
def sellEnvNoPosition : CycleEnv :=
  { shortPrices := [1], longPrices := [2], cash := 0, positionQty := none,
    submitOk := true, pollStatuses := pollFilled, initStatus := "filled",
    maxWait := 300 }

/-- Concrete cycle: BUY signal with zero cash, so the computed notional
is 0.0 and `_place_order` sees a falsy sizing. -/
def zeroCashEnv : CycleEnv :=
  { shortPrices := [2], longPrices := [1], cash := 0, positionQty := none,
    submitOk := true, pollStatuses := pollFilled, initStatus := "filled",
    maxWait := 300 }

/-! Helper lemmas about the poll loop, shared by several claims. -/

/-- One unfolding of the poll loop when the loop guard holds. -/
theorem monitorLoop_step (getStatus : Nat → String) (status : String)
    (remaining : Int) (sleeps polls : Nat)
    (h : status ≠ "filled" ∧ 0 < remaining) :
    monitorLoop getStatus status remaining sleeps polls =
      monitorLoop getStatus (getStatus polls) (remaining - 60)
        (sleeps + 1) (polls + 1) := by
  rw [monitorLoop, if_pos h]

/-- The poll loop exits as soon as the guard fails. -/
theorem monitorLoop_exit (getStatus : Nat → String) (status : String)
    (remaining : Int) (sleeps polls : Nat)
    (h : ¬ (status ≠ "filled" ∧ 0 < remaining)) :
    monitorLoop getStatus status remaining sleeps polls =
      (status, sleeps, polls) := by
  rw [monitorLoop, if_neg h]

/-- The monitor performs no sleep or poll when the submitted order is
already filled. -/
theorem monitorSkipsWhenFilled (getStatus : Nat → String) (w : Int) :
    monitor_order getStatus "filled" w =
      { sleeps := 0, polls := 0, cancels := 0,
        logged := ["FILLED"], filled := true } := by
  have h := monitorLoop_exit getStatus "filled" w 0 0 (by simp)
  simp [monitor_order, h]

/-- C1: for non-empty windows the decision follows the sign of
`short_mean - long_mean`, the side is never `none`, and the multiplier is
one of the three constants, all of which lie in (0, 1]. -/
theorem make_decision_trichotomy (short long : List ℚ)
    (hs : short ≠ []) (hl : long ≠ []) :
    (long.sum / (long.length : ℚ) < short.sum / (short.length : ℚ) →
      make_decision short long = (some OrderSide.BUY, 0.75)) ∧
    (short.sum / (short.length : ℚ) < long.sum / (long.length : ℚ) →
      make_decision short long = (some OrderSide.SELL, 0.10)) ∧
    (short.sum / (short.length : ℚ) = long.sum / (long.length : ℚ) →
      make_decision short long = (some OrderSide.BUY, 0.50)) ∧
    (make_decision short long).1 ≠ none ∧
    ((make_decision short long).2 = 0.75 ∨ (make_decision short long).2 = 0.10 ∨
      (make_decision short long).2 = 0.50) ∧
    0 < (make_decision short long).2 ∧ (make_decision short long).2 ≤ 1 := by
  have hs' : short.isEmpty = false := by
    simpa [List.isEmpty_iff] using hs
  have hl' : long.isEmpty = false := by
    simpa [List.isEmpty_iff] using hl
  set sm := short.sum / (short.length : ℚ) with hsm
  set lm := long.sum / (long.length : ℚ) with hlm
  have hmd : make_decision short long =
      if lm < sm then (some OrderSide.BUY, 0.75)
      else if sm < lm then (some OrderSide.SELL, 0.10)
      else (some OrderSide.BUY, 0.50) := by
    simp [make_decision, npMean, hs', hl', nanGt, nanLt, hsm, hlm]
  rcases lt_trichotomy sm lm with h | h | h
  · have hng : ¬ lm < sm := not_lt.mpr h.le
    rw [hmd, if_neg hng, if_pos h]
    refine ⟨fun hc => absurd hc hng, fun _ => rfl, fun he => absurd he h.ne, ?_, ?_, ?_, ?_⟩
    · simp
    · norm_num
    · norm_num
    · norm_num
  · have hng : ¬ lm < sm := not_lt.mpr h.le
    have hng' : ¬ sm < lm := not_lt.mpr h.ge
    rw [hmd, if_neg hng, if_neg hng']
    refine ⟨fun hc => absurd hc hng, fun hc => absurd hc hng', fun _ => rfl, ?_, ?_, ?_, ?_⟩
    · simp
    · norm_num
    · norm_num
    · norm_num
  · rw [hmd, if_pos h]
    refine ⟨fun _ => rfl, fun hc => absurd hc (not_lt.mpr h.le),
      fun he => absurd he (ne_of_gt h), ?_, ?_, ?_, ?_⟩
    · simp
    · norm_num
    · norm_num
    · norm_num

/-- Witness for C1 at concrete windows exercising all three branches. -/
theorem make_decision_trichotomy_witness :
    make_decision [2] [1] = (some OrderSide.BUY, 0.75) ∧
    make_decision [1] [2] = (some OrderSide.SELL, 0.10) ∧
    make_decision [3] [3] = (some OrderSide.BUY, 0.50) := by
  refine ⟨?_, ?_, ?_⟩
  · exact (make_decision_trichotomy [2] [1] (by simp) (by simp)).1 (by norm_num)
  · exact (make_decision_trichotomy [1] [2] (by simp) (by simp)).2.1 (by norm_num)
  · exact (make_decision_trichotomy [3] [3] (by simp) (by simp)).2.2.1 (by norm_num)

/-- C2: the source never raises an `InsufficientDataError`: on an empty
window `np.mean` yields NaN, both NaN comparisons are false, and
`make_decision` silently falls through to the tie branch `(BUY, 0.50)`. -/
theorem make_decision_empty_window :
    make_decision [] [5] = (some OrderSide.BUY, 0.50) ∧
    make_decision [5] [] = (some OrderSide.BUY, 0.50) ∧
    make_decision [] [] = (some OrderSide.BUY, 0.50) := by
  refine ⟨?_, ?_, ?_⟩ <;> rfl

/-- C3: with every polled status "pending" and `max_wait = 120` (poll
interval fixed at 60), the monitor polls exactly twice, sleeps exactly
twice, issues exactly one cancel request and appends exactly one
CANCELLED record. -/
theorem monitor_order_timeout (getStatus : Nat → String) (initStatus : String)
    (hg : ∀ n, getStatus n = "pending") (hi : initStatus = "pending") :
    monitor_order getStatus initStatus 120 =
      { sleeps := 2, polls := 2, cancels := 1,
        logged := ["CANCELLED"], filled := false } := by
  have hloop : monitorLoop getStatus initStatus 120 0 0 = ("pending", 2, 2) := by
    rw [hi, monitorLoop_step _ _ _ _ _ (by constructor <;> decide), hg 0,
      monitorLoop_step _ _ _ _ _ (by constructor <;> decide), hg 1]
    norm_num
    exact monitorLoop_exit _ _ _ _ _ (by norm_num)
  simp [monitor_order, hloop]

/-- Witness for C3 with the constant "pending" status stream. -/
theorem monitor_order_timeout_witness :
    monitor_order (fun _ => "pending") "pending" 120 =
      { sleeps := 2, polls := 2, cancels := 1,
        logged := ["CANCELLED"], filled := false } :=
  monitor_order_timeout (fun _ => "pending") "pending" (fun _ => rfl) rfl

/-- C4: with status sequence [pending, pending, filled] and
`max_wait = 300`, the monitor sleeps exactly twice, reaches FILLED,
issues no cancel and appends exactly one FILLED record; moreover every
invocation appends exactly one trade-log record. -/
theorem monitor_order_filled (getStatus : Nat → String) (initStatus : String)
    (hi : initStatus = "pending")
    (h0 : getStatus 0 = "pending") (h1 : getStatus 1 = "filled") :
    monitor_order getStatus initStatus 300 =
      { sleeps := 2, polls := 2, cancels := 0,
        logged := ["FILLED"], filled := true } ∧
    ∀ (gs : Nat → String) (s : String) (w : Int),
      (monitor_order gs s w).logged.length = 1 := by
  constructor
  · have hloop : monitorLoop getStatus initStatus 300 0 0 = ("filled", 2, 2) := by
      rw [hi, monitorLoop_step _ _ _ _ _ (by constructor <;> decide), h0,
        monitorLoop_step _ _ _ _ _ (by constructor <;> decide), h1]
      norm_num
      exact monitorLoop_exit _ _ _ _ _ (by simp)
    simp [monitor_order, hloop]
  · intro gs s w
    unfold monitor_order
    rcases monitorLoop gs s w 0 0 with ⟨final, sleeps, polls⟩
    simp

/-- Witness for C4 with the concrete status sequence. -/
theorem monitor_order_filled_witness :
    monitor_order (fun n => if n = 0 then "pending" else "filled") "pending" 300 =
      { sleeps := 2, polls := 2, cancels := 0,
        logged := ["FILLED"], filled := true } :=
  (monitor_order_filled (fun n => if n = 0 then "pending" else "filled")
    "pending" rfl rfl rfl).1

/-- The BUY decision on the concrete windows [2] and [1]. -/
theorem decisionBuyExample : make_decision [2] [1] = (some OrderSide.BUY, 0.75) := by
  norm_num [make_decision, npMean, nanGt, nanLt]

/-- The SELL decision on the concrete windows [1] and [2]. -/
theorem decisionSellExample : make_decision [1] [2] = (some OrderSide.SELL, 0.10) := by
  norm_num [make_decision, npMean, nanGt, nanLt]

/-- C5 counterexample: with the brokerage rejecting the submission in the
first cycle, the scheduler loop terminates with the uncaught
SubmissionError and the second cycle never runs, although that second
cycle alone would have produced a FILLED record. -/
theorem runLoop_submission_error_cex :
    runLoop [rejectedBuyEnv, acceptedBuyEnv] = ([], some "SubmissionError") ∧
    runLoop [acceptedBuyEnv] = (["FILLED"], none) := by
  have hmd := decisionBuyExample
  have ht : truthy (some ((1000 : ℚ) * 0.75)) = true := by norm_num [truthy]
  have hmon := monitorSkipsWhenFilled pollFilled 300
  have herr : (runCycle rejectedBuyEnv).err = some "SubmissionError" := by
    simp [runCycle, rejectedBuyEnv, hmd, place_order, ht]
  have hlogs : (runCycle rejectedBuyEnv).logs = [] := by
    simp [runCycle, rejectedBuyEnv, hmd, place_order, ht]
  have hacc : runCycle acceptedBuyEnv =
      { submitted := [{ side := OrderSide.BUY, qty := none
                        notional := some (1000 * 0.75) }],
        logs := ["FILLED"], err := none } := by
    simp [runCycle, acceptedBuyEnv, hmd, place_order, ht, hmon]
  constructor
  · simp [runLoop, herr, hlogs]
  · simp [runLoop, hacc]

/-- C5 amended: a brokerage rejection of the submission leaves the ledger
untouched for that cycle and there is no second submission attempt within
the cycle, but the exception is not caught: the scheduler loop terminates
with it and no later cycle runs. -/
theorem runLoop_submission_error (env : CycleEnv) (rest : List CycleEnv)
    (e : String) (hs : env.submitOk = false)
    (he : (runCycle env).err = some e) :
    (runCycle env).logs = [] ∧ (runCycle env).submitted.length ≤ 1 ∧
    runLoop (env :: rest) = ([], some e) := by
  have hbase : (runCycle env).logs = [] ∧ (runCycle env).submitted.length ≤ 1 := by
    unfold runCycle
    rcases hmd : make_decision env.shortPrices env.longPrices with ⟨sideOpt, m⟩
    rcases sideOpt with _ | side
    · simp
    · cases side with
      | BUY =>
        simp only [place_order, hs]
        split
        · simp
        · split <;> simp
      | SELL =>
        cases hpos : env.positionQty with
        | none => simp
        | some q =>
          simp only [place_order, hs]
          split
          · simp
          · split <;> simp
  refine ⟨hbase.1, hbase.2, ?_⟩
  simp [runLoop, he, hbase.1]

/-- Witness for C5 with the concrete rejected-submission cycle. -/
theorem runLoop_submission_error_witness :
    (runCycle rejectedBuyEnv).logs = [] ∧
    (runCycle rejectedBuyEnv).submitted.length ≤ 1 ∧
    runLoop [rejectedBuyEnv, acceptedBuyEnv] = ([], some "SubmissionError") :=
  runLoop_submission_error rejectedBuyEnv [acceptedBuyEnv] "SubmissionError"
    rfl (by
      have hmd := decisionBuyExample
      have ht : truthy (some ((1000 : ℚ) * 0.75)) = true := by norm_num [truthy]
      simp [runCycle, rejectedBuyEnv, hmd, place_order, ht])

/-- C6 counterexample: on Saturday at 10:00 local the next-wake
computation yields Sunday at 10:00 (the weekend branch adds one day
without resetting the time of day), not the following Monday at 09:30. -/
theorem nextWake_saturday_cex :
    nextWake { day := 5, sod := 36000 } =
      WakeResult.wait { day := 6, sod := 36000 } ∧
    nextWake { day := 5, sod := 36000 } ≠
      WakeResult.wait { day := 7, sod := marketOpenSod } := by
  constructor <;> decide

/-- C6 amended: on a Saturday the next wake is one calendar day later at
the same time of day; on a trading weekday at 08:00 it is 09:30 the same
day; iterating from a Saturday time before 09:30 reaches Sunday then
Monday at the same time of day and only then 09:30 of that Monday. -/
theorem nextWake_behavior (t : LocalTime) :
    (t.day % 7 = 5 →
      nextWake t = WakeResult.wait { day := t.day + 1, sod := t.sod }) ∧
    (t.day % 7 < 5 → t.sod = 8 * 3600 →
      nextWake t = WakeResult.wait { day := t.day, sod := marketOpenSod }) ∧
    (t.day % 7 = 5 → t.sod < marketOpenSod →
      nextWake { day := t.day + 1, sod := t.sod } =
        WakeResult.wait { day := t.day + 2, sod := t.sod } ∧
      nextWake { day := t.day + 2, sod := t.sod } =
        WakeResult.wait { day := t.day + 2, sod := marketOpenSod }) := by
  refine ⟨?_, ?_, ?_⟩
  · intro h5
    have hw : ¬ t.day % 7 < 5 := by omega
    simp [nextWake, hw]
  · intro hw h8
    have h1 : ¬ marketCloseSod < t.sod := by
      rw [h8]; norm_num [marketCloseSod]
    have h2 : t.sod < marketOpenSod := by
      rw [h8]; norm_num [marketOpenSod]
    simp [nextWake, hw, h1, h2]
  · intro h5 hlt
    constructor
    · have hw : ¬ (t.day + 1) % 7 < 5 := by omega
      simp [nextWake, hw]
    · have hw : (t.day + 2) % 7 < 5 := by omega
      have h1 : ¬ marketCloseSod < t.sod := by
        unfold marketOpenSod at hlt; unfold marketCloseSod; omega
      simp [nextWake, hw, h1, hlt]

/-- Witness for C6 at Saturday 08:00 and Monday 08:00. -/
theorem nextWake_behavior_witness :
    nextWake { day := 5, sod := 28800 } = WakeResult.wait { day := 6, sod := 28800 } ∧
    nextWake { day := 7, sod := 28800 } =
      WakeResult.wait { day := 7, sod := marketOpenSod } ∧
    nextWake { day := 6, sod := 28800 } = WakeResult.wait { day := 7, sod := 28800 } ∧
    nextWake { day := 7, sod := 28800 } =
      WakeResult.wait { day := 7, sod := marketOpenSod } := by
  have h3 := (nextWake_behavior { day := 5, sod := 28800 }).2.2 rfl (by norm_num [marketOpenSod])
  exact ⟨(nextWake_behavior { day := 5, sod := 28800 }).1 rfl,
    (nextWake_behavior { day := 7, sod := 28800 }).2.1 (by norm_num) (by norm_num),
    h3.1, h3.2⟩

/-- C7: BUY orders are sized notional = cash * multiplier, SELL orders
quantity = position_qty * multiplier, and a SELL with no open position
submits nothing. -/
theorem runCycle_sizing :
    (∀ (env : CycleEnv) (m : ℚ),
      make_decision env.shortPrices env.longPrices = (some OrderSide.BUY, m) →
      env.cash * m ≠ 0 →
      (runCycle env).submitted =
        [{ side := OrderSide.BUY, qty := none, notional := some (env.cash * m) }]) ∧
    (∀ (env : CycleEnv) (q m : ℚ),
      make_decision env.shortPrices env.longPrices = (some OrderSide.SELL, m) →
      env.positionQty = some q → q * m ≠ 0 →
      (runCycle env).submitted =
        [{ side := OrderSide.SELL, qty := some (q * m), notional := none }]) ∧
    (∀ (env : CycleEnv) (m : ℚ),
      make_decision env.shortPrices env.longPrices = (some OrderSide.SELL, m) →
      env.positionQty = none →
      (runCycle env).submitted = []) := by
  refine ⟨?_, ?_, ?_⟩
  · intro env m hmd hne
    have ht : truthy (some (env.cash * m)) = true := by simp [truthy, hne]
    simp only [runCycle, hmd, place_order, ht]
    cases env.submitOk <;> simp
  · intro env q m hmd hpos hne
    have ht : truthy (some (q * m)) = true := by simp [truthy, hne]
    have htn : truthy none = false := rfl
    simp only [runCycle, hmd, hpos, place_order, ht, htn]
    cases env.submitOk <;> simp
  · intro env m hmd hpos
    simp [runCycle, hmd, hpos]

/-- Witness for C7: cash 1000 with multiplier 0.75 submits notional 750;
position 10 with multiplier 0.10 submits quantity 1; SELL without a
position submits nothing. -/
theorem runCycle_sizing_witness :
    (runCycle acceptedBuyEnv).submitted =
      [{ side := OrderSide.BUY, qty := none, notional := some 750 }] ∧
    (runCycle sellEnvWithPosition).submitted =
      [{ side := OrderSide.SELL, qty := some 1, notional := none }] ∧
    (runCycle sellEnvNoPosition).submitted = [] := by
  refine ⟨?_, ?_, ?_⟩
  · have h := runCycle_sizing.1 acceptedBuyEnv 0.75 decisionBuyExample
      (by norm_num [acceptedBuyEnv])
    rw [show acceptedBuyEnv.cash * (0.75 : ℚ) = 750 from by
      norm_num [acceptedBuyEnv]] at h
    exact h
  · have h := runCycle_sizing.2.1 sellEnvWithPosition 10 0.10 decisionSellExample
      rfl (by norm_num)
    rw [show (10 : ℚ) * (0.10 : ℚ) = 1 from by norm_num] at h
    exact h
  · exact runCycle_sizing.2.2 sellEnvNoPosition 0.10 decisionSellExample rfl

/-- C8 counterexample: with both qty and notional given (both truthy),
`_place_order` does not reject the call: notional takes precedence and a
notional order is submitted. -/
theorem place_order_both_given_cex :
    place_order (some 1) (some 2) OrderSide.BUY true pollFilled "filled" 300 =
      { submitted := [{ side := OrderSide.BUY, qty := none, notional := some 2 }],
        logs := ["FILLED"], err := none } := by
  have hmon := monitorSkipsWhenFilled pollFilled 300
  have ht : truthy (some (2 : ℚ)) = true := by norm_num [truthy]
  simp [place_order, ht, hmon]

/-- C8 amended: only the case in which both sizing arguments are falsy is
rejected (ValueError, nothing submitted); when notional is truthy an
order is submitted with notional sizing regardless of qty. -/
theorem place_order_validation (qty notional : Option ℚ) (side : OrderSide)
    (submitOk : Bool) (gs : Nat → String) (s : String) (w : Int) :
    (truthy notional = false → truthy qty = false →
      place_order qty notional side submitOk gs s w =
        { submitted := [], logs := [], err := some "ValueError" }) ∧
    (truthy notional = true →
      (place_order qty notional side submitOk gs s w).submitted =
        [{ side := side, qty := none, notional := notional }]) := by
  constructor
  · intro hn hq
    simp [place_order, hn, hq]
  · intro hn
    simp only [place_order, hn]
    cases submitOk <;> simp

/-- Witness for C8: neither argument given is rejected; both 3 and 4
given submits the notional order. -/
theorem place_order_validation_witness :
    place_order none none OrderSide.BUY true pollFilled "filled" 300 =
      { submitted := [], logs := [], err := some "ValueError" } ∧
    (place_order (some 3) (some 4) OrderSide.SELL false pollFilled
        "filled" 300).submitted =
      [{ side := OrderSide.SELL, qty := none, notional := some 4 }] :=
  ⟨(place_order_validation none none OrderSide.BUY true pollFilled
      "filled" 300).1 rfl rfl,
   (place_order_validation (some 3) (some 4) OrderSide.SELL false pollFilled
      "filled" 300).2 (by norm_num [truthy])⟩

/-- Appending records that differ from the header preserves the number of
header lines in the ledger. -/
theorem update_trade_log_fold_count (rs : List String) (acc : List String)
    (h : ∀ r ∈ rs, r ≠ tradeLogHeader) :
    (rs.foldl (fun a r => update_trade_log (some a) r) acc).count tradeLogHeader
      = acc.count tradeLogHeader := by
  induction rs generalizing acc with
  | nil => rfl
  | cons r rs ih =>
    have hr : r ≠ tradeLogHeader := h r (by simp)
    rw [List.foldl_cons,
      ih (update_trade_log (some acc) r) (fun x hx => h x (by simp [hx]))]
    simp [update_trade_log, List.count_append, List.count_cons, Ne.symm hr]

/-- C9: creating the ledger writes the header exactly once before the
record; appending to an existing ledger appends exactly one record line;
iterating appends after creation leaves exactly one header line. -/
theorem update_trade_log_header_once :
    (∀ r : String, update_trade_log none r = [tradeLogHeader, r]) ∧
    (∀ (lines : List String) (r : String),
      update_trade_log (some lines) r = lines ++ [r]) ∧
    (∀ (r0 : String) (rs : List String), r0 ≠ tradeLogHeader →
      (∀ r ∈ rs, r ≠ tradeLogHeader) →
      (rs.foldl (fun acc r => update_trade_log (some acc) r)
          (update_trade_log none r0)).count tradeLogHeader = 1) := by
  refine ⟨fun r => rfl, fun lines r => rfl, ?_⟩
  intro r0 rs h0 h
  rw [update_trade_log_fold_count rs _ h]
  simp [update_trade_log, List.count_cons, Ne.symm h0]

/-- Witness for C9 with three concrete appends. -/
theorem update_trade_log_header_once_witness :
    update_trade_log none "record1" = [tradeLogHeader, "record1"] ∧
    update_trade_log (some [tradeLogHeader, "record1"]) "record2" =
      [tradeLogHeader, "record1", "record2"] ∧
    (["record2", "record3"].foldl (fun acc r => update_trade_log (some acc) r)
        (update_trade_log none "record1")).count tradeLogHeader = 1 := by
  refine ⟨update_trade_log_header_once.1 "record1", ?_, ?_⟩
  · simpa using
      update_trade_log_header_once.2.1 [tradeLogHeader, "record1"] "record2"
  · exact update_trade_log_header_once.2.2 "record1" ["record2", "record3"]
      (by decide) (by decide)

/-- C10: a sizing argument that is None or 0.0 is falsy, so when both
qty and notional are None-or-zero `_place_order` raises ValueError and
submits nothing; consequently a BUY with zero cash and a SELL of a
zero-share position raise instead of submitting a zero order. -/
theorem place_order_zero_treated_as_absent (qty notional : Option ℚ)
    (side : OrderSide) (submitOk : Bool) (gs : Nat → String) (s : String)
    (w : Int) (hq : qty = none ∨ qty = some 0)
    (hn : notional = none ∨ notional = some 0) :
    place_order qty notional side submitOk gs s w =
      { submitted := [], logs := [], err := some "ValueError" } ∧
    (∀ (env : CycleEnv) (m : ℚ),
      make_decision env.shortPrices env.longPrices = (some OrderSide.BUY, m) →
      env.cash = 0 →
      runCycle env = { submitted := [], logs := [], err := some "ValueError" }) ∧
    (∀ (env : CycleEnv) (m : ℚ),
      make_decision env.shortPrices env.longPrices = (some OrderSide.SELL, m) →
      env.positionQty = some 0 →
      runCycle env = { submitted := [], logs := [], err := some "ValueError" }) := by
  refine ⟨?_, ?_, ?_⟩
  · have hqf : truthy qty = false := by
      rcases hq with h | h <;> simp [h, truthy]
    have hnf : truthy notional = false := by
      rcases hn with h | h <;> simp [h, truthy]
    simp [place_order, hqf, hnf]
  · intro env m hmd hcash
    simp [runCycle, hmd, hcash, place_order, truthy]
  · intro env m hmd hpos
    simp [runCycle, hmd, hpos, place_order, truthy]

/-- Witness for C10: both sizing arguments zero raises ValueError, and a
BUY cycle with zero cash raises ValueError without submitting. -/
theorem place_order_zero_treated_as_absent_witness :
    place_order (some 0) (some 0) OrderSide.BUY true pollFilled "filled" 300 =
      { submitted := [], logs := [], err := some "ValueError" } ∧
    runCycle zeroCashEnv =
      { submitted := [], logs := [], err := some "ValueError" } := by
  have h := place_order_zero_treated_as_absent (some 0) (some 0) OrderSide.BUY
    true pollFilled "filled" 300 (Or.inr rfl) (Or.inr rfl)
  exact ⟨h.1, h.2.1 zeroCashEnv 0.75 decisionBuyExample rfl⟩

end AdiTradingBot
